import Mathlib

/-!
Verification of the hybrid search / result-fusion layer of the
rag-agent-asrs repository.

Embedded source functions:
* `hybrid_search_fm_global` — src/sql/fix_fm_functions.sql, lines 81-207
  (the variant in src/unnamed/part_005 lines 143-230 shares the same
  scoring formula and join structure).
* `match_fm_global_vectors` — src/unnamed/part_005, lines 88-140.
* `search_fm_global_all` — src/unnamed/part_006, lines 2-80.
* `searchMultiVector` / `searchFigureVectors` / `searchTableVectors` /
  `searchTextVectors` — src/unnamed/part_000, lines 240-356 (TypeScript).

Modelling conventions:
* UUID columns are modelled as `Nat`; `vector(1536)` embeddings as
  `List ℚ`; SQL `NULL` as `Option`.
* The external PostgreSQL builtins used by the SQL bodies — the pgvector
  cosine-distance operator, full-text match, and full-text ranking
  (ts_rank / ts_rank_cd) — are not part of this repository; they are
  passed as a parameter record `PgOps`.  Theorems that depend on facts
  about them (cosine distance lies in [0,2], ts_rank is non-negative,
  an empty tsquery matches nothing) take those facts as hypotheses.
* SQL `ORDER BY` fixes no order among tied rows; the embedding realizes
  it as a stable insertion sort over the scan order, one legal
  execution.  `ORDER BY e ASC` on a nullable expression places NULLs
  last, as Postgres does by default.
* The constant-NULL output columns (`regulation_section`,
  `design_parameter` in fix_fm_functions.sql) and the opaque `jsonb`
  metadata column are omitted from the result records: no claim
  mentions them.
-/

/-- External PostgreSQL / pgvector operators used by the SQL function
bodies.  `cosDist` is the pgvector `<=>` operator (cosine distance),
`tsMatch c q` is `to_tsvector('english', c) @@ plainto_tsquery('english', q)`,
and `tsRank c q` is `ts_rank(to_tsvector('english', c), plainto_tsquery('english', q))`
(part_005 uses `ts_rank_cd`; both are non-negative ranking functions and
are modelled by the same parameter). -/
structure PgOps where
  cosDist : List ℚ → List ℚ → ℚ
  tsMatch : String → String → Bool
  tsRank : String → String → ℚ

/-- A row of `fm_global_vectors` (schema: src/unnamed/part_005, lines
62-78).  fix_fm_functions.sql addresses the same table through drifted
column names `content_id` / `content_type`; both are modelled by
`sourceId` / `sourceType`.  -/
structure VectorRow where
  id : Nat
  sourceId : Nat
  sourceType : String
  content : String
  embedding : Option (List ℚ)
  asrsTopic : Option String
deriving DecidableEq

/-- A row of `fm_global_tables`.  `tableId` is the `table_id` column the
fix_fm_functions.sql variant reads, `tableNumber` the `table_number`
column of the part_005 schema (schema drift noted in the spec);
`asrsType` is the `asrs_type` column fix_fm_functions.sql filters on. -/
structure TableRow where
  id : Nat
  tableId : String
  tableNumber : String
  title : String
  asrsType : Option String
deriving DecidableEq

/-- A row of `fm_global_figures`. -/
structure FigureRow where
  id : Nat
  figureNumber : String
  title : String
  asrsType : Option String
deriving DecidableEq

/-- The content store read by the SQL search functions. -/
structure Store where
  vectors : List VectorRow
  tables : List TableRow
  figures : List FigureRow
deriving DecidableEq

/-- The `LEFT JOIN fm_global_tables t ON v.content_id = t.id AND
v.content_type = 'table'` lookup (`id` is the primary key, so at most
one row matches). -/
def tableFor (s : Store) (v : VectorRow) : Option TableRow :=
  if v.sourceType = "table" then s.tables.find? (fun t => t.id == v.sourceId) else none

/-- The `LEFT JOIN fm_global_figures f ON v.content_id = f.id AND
v.content_type = 'figure'` lookup. -/
def figureFor (s : Store) (v : VectorRow) : Option FigureRow :=
  if v.sourceType = "figure" then s.figures.find? (fun f => f.id == v.sourceId) else none

/-- The WHERE-clause filter of fix_fm_functions.sql (lines 131-134 and
164-168): `filter_asrs_type IS NULL OR (content_type = 'table' AND
t.asrs_type = filter) OR (content_type = 'figure' AND f.asrs_type =
filter)`.  A NULL `asrs_type` (missed join or NULL column) compares as
not-true, as in SQL three-valued logic. -/
def asrsFilterOk (s : Store) (filterAsrsType : Option String) (v : VectorRow) : Bool :=
  match filterAsrsType with
  | none => true
  | some fl =>
      (v.sourceType == "table" && ((tableFor s v).bind (fun t => t.asrsType) == some fl))
      || (v.sourceType == "figure" && ((figureFor s v).bind (fun f => f.asrsType) == some fl))

/-- `CASE WHEN content_type = 'table' THEN t.table_id WHEN 'figure' THEN
'Figure ' || f.figure_number END` (fix_fm_functions.sql lines 118-122). -/
def refNumberOf (s : Store) (v : VectorRow) : Option String :=
  if v.sourceType = "table" then (tableFor s v).map (fun t => t.tableId)
  else if v.sourceType = "figure" then
    (figureFor s v).map (fun f => "Figure " ++ f.figureNumber)
  else none

/-- `CASE WHEN content_type = 'table' THEN t.title WHEN 'figure' THEN
f.title END` (fix_fm_functions.sql lines 123-127). -/
def refTitleOf (s : Store) (v : VectorRow) : Option String :=
  if v.sourceType = "table" then (tableFor s v).map (fun t => t.title)
  else if v.sourceType = "figure" then (figureFor s v).map (fun f => f.title)
  else none

/-- `CASE WHEN content_type = 'table' THEN t.asrs_type WHEN 'figure'
THEN f.asrs_type END` (fix_fm_functions.sql lines 113-117). -/
def asrsTypeValOf (s : Store) (v : VectorRow) : Option String :=
  if v.sourceType = "table" then (tableFor s v).bind (fun t => t.asrsType)
  else if v.sourceType = "figure" then (figureFor s v).bind (fun f => f.asrsType)
  else none

/-- `v.embedding <=> query_embedding`: NULL when the embedding is NULL. -/
def distOpt (ops : PgOps) (q : List ℚ) (v : VectorRow) : Option ℚ :=
  v.embedding.map (fun e => ops.cosDist e q)

/-- Postgres default ordering for `ORDER BY expr ASC` on a nullable
expression: values ascending, NULLs last. -/
def optLeNullsLast : Option ℚ → Option ℚ → Bool
  | some x, some y => x ≤ y
  | some _, none => true
  | none, some _ => false
  | none, none => true

/-- SQL `COALESCE` on two nullable values. -/
def coalesceO {α : Type} : Option α → Option α → Option α
  | some a, _ => some a
  | none, b => b

/-- Stable sort realizing `ORDER BY k ASC NULLS LAST` over the scan
order of the underlying list. -/
def sortByNullsLastAsc {α : Type} (k : α → Option ℚ) (l : List α) : List α :=
  List.insertionSort (fun a b => optLeNullsLast (k a) (k b) = true) l

/-- Stable sort realizing `ORDER BY k DESC` over the scan order of the
underlying list. -/
def sortByDescQ {α : Type} (k : α → ℚ) (l : List α) : List α :=
  List.insertionSort (fun a b => k b ≤ k a) l

/-- A row of either CTE (`vector_results` / `text_results`) of
`hybrid_search_fm_global` (fix_fm_functions.sql lines 105-170).  The
`score` field holds `vector_score` (NULL when the embedding is NULL)
resp. `text_score` (never NULL). -/
structure Cand where
  id : Nat
  sourceId : Nat
  sourceType : String
  content : String
  score : Option ℚ
  asrsTypeVal : Option String
  refNumber : Option String
  refTitle : Option String
deriving DecidableEq

/-- Projection of one `fm_global_vectors` row into the `vector_results`
CTE (fix_fm_functions.sql lines 106-127): `vector_score = 1 -
(v.embedding <=> query_embedding)`. -/
def mkVectorCand (ops : PgOps) (s : Store) (qEmb : List ℚ) (v : VectorRow) : Cand :=
  { id := v.id
    sourceId := v.sourceId
    sourceType := v.sourceType
    content := v.content
    score := (distOpt ops qEmb v).map (fun d => 1 - d)
    asrsTypeVal := asrsTypeValOf s v
    refNumber := refNumberOf s v
    refTitle := refTitleOf s v }

/-- Projection of one `fm_global_vectors` row into the `text_results`
CTE (fix_fm_functions.sql lines 139-160): `text_score = ts_rank(...)`. -/
def mkTextCand (ops : PgOps) (s : Store) (qText : String) (v : VectorRow) : Cand :=
  { id := v.id
    sourceId := v.sourceId
    sourceType := v.sourceType
    content := v.content
    score := some (ops.tsRank v.content qText)
    asrsTypeVal := asrsTypeValOf s v
    refNumber := refNumberOf s v
    refTitle := refTitleOf s v }

/-- The `vector_results` CTE of `hybrid_search_fm_global`
(fix_fm_functions.sql lines 105-137): filter by `asrs_type`, `ORDER BY
v.embedding <=> query_embedding`, `LIMIT match_count * 2`.  There is no
`embedding IS NOT NULL` guard in this variant; NULL embeddings sort
last with a NULL score. -/
def vector_results (ops : PgOps) (s : Store) (qEmb : List ℚ)
    (filterAsrsType : Option String) (matchCount : Nat) : List Cand :=
  ((sortByNullsLastAsc (distOpt ops qEmb)
      (s.vectors.filter (asrsFilterOk s filterAsrsType))).take (matchCount * 2)).map
    (mkVectorCand ops s qEmb)

/-- The `text_results` CTE of `hybrid_search_fm_global`
(fix_fm_functions.sql lines 138-169): keep rows whose tsvector matches
the query, `LIMIT match_count * 2` with no ORDER BY (realized as the
scan order). -/
def text_results (ops : PgOps) (s : Store) (qText : String)
    (filterAsrsType : Option String) (matchCount : Nat) : List Cand :=
  ((s.vectors.filter
      (fun v => ops.tsMatch v.content qText && asrsFilterOk s filterAsrsType v)).take
    (matchCount * 2)).map (mkTextCand ops s qText)

/-- One row of the `FULL OUTER JOIN vector_results v ... text_results t
ON v.id = t.id` (fix_fm_functions.sql line 186): present on both sides,
only the vector side, or only the text side. -/
inductive JoinedRow where
  | both (v t : Cand)
  | vecOnly (v : Cand)
  | textOnly (t : Cand)
deriving DecidableEq

/-- The full outer join on `id`: every vector candidate paired with its
matching text candidate when one exists, followed by the unmatched text
candidates. -/
def fullOuterJoin (vr tr : List Cand) : List JoinedRow :=
  vr.map (fun v =>
      match tr.find? (fun t => t.id == v.id) with
      | some t => JoinedRow.both v t
      | none => JoinedRow.vecOnly v)
    ++ (tr.filter (fun t => !(vr.any (fun v => v.id == t.id)))).map JoinedRow.textOnly

/-- The record identifier a joined row carries (`COALESCE(v.id, t.id)`). -/
def joinedId : JoinedRow → Nat
  | JoinedRow.both v _ => v.id
  | JoinedRow.vecOnly v => v.id
  | JoinedRow.textOnly t => t.id

/-- One fully-populated output row of `hybrid_search_fm_global`
(fix_fm_functions.sql RETURNS TABLE, lines 87-102, minus the
constant-NULL and jsonb columns). -/
structure ResultRow where
  vectorId : Nat
  sourceId : Nat
  sourceType : String
  content : String
  combinedScore : ℚ
  vectorSimilarity : ℚ
  textSimilarity : ℚ
  asrsTopic : Option String
  tableNumber : Option String
  figureNumber : Option String
  referenceTitle : Option String
deriving DecidableEq

/-- The `combined` CTE projection (fix_fm_functions.sql lines 171-187):
COALESCE each side, `score = COALESCE(v.vector_score, 0) * (1 -
text_weight) + COALESCE(t.text_score, 0) * text_weight`, and the final
SELECT's CASE split of `reference_number` into `table_number` /
`figure_number` (lines 200-201). -/
def combineJoined (w : ℚ) (j : JoinedRow) : ResultRow :=
  let vSide : Option Cand := match j with
    | JoinedRow.both v _ => some v
    | JoinedRow.vecOnly v => some v
    | JoinedRow.textOnly _ => none
  let tSide : Option Cand := match j with
    | JoinedRow.both _ t => some t
    | JoinedRow.vecOnly _ => none
    | JoinedRow.textOnly t => some t
  let vScore : ℚ := ((vSide.bind (fun c => c.score)).getD 0)
  let tScore : ℚ := ((tSide.bind (fun c => c.score)).getD 0)
  let base : Cand := match j with
    | JoinedRow.both v _ => v
    | JoinedRow.vecOnly v => v
    | JoinedRow.textOnly t => t
  let refNumber : Option String := coalesceO (vSide.bind (fun c => c.refNumber))
    (tSide.bind (fun c => c.refNumber))
  { vectorId := base.id
    sourceId := base.sourceId
    sourceType := base.sourceType
    content := base.content
    combinedScore := vScore * (1 - w) + tScore * w
    vectorSimilarity := vScore
    textSimilarity := tScore
    asrsTopic := coalesceO (vSide.bind (fun c => c.asrsTypeVal)) (tSide.bind (fun c => c.asrsTypeVal))
    tableNumber := if base.sourceType = "table" then refNumber else none
    figureNumber := if base.sourceType = "figure" then refNumber else none
    referenceTitle := coalesceO (vSide.bind (fun c => c.refTitle)) (tSide.bind (fun c => c.refTitle)) }

/-- The rows of the `combined` CTE: full outer join of the two candidate
CTEs, each joined pair blended with weight `w`. -/
def combinedRows (ops : PgOps) (s : Store) (qEmb : List ℚ) (qText : String)
    (matchCount : Nat) (w : ℚ) (filterAsrsType : Option String) : List ResultRow :=
  (fullOuterJoin (vector_results ops s qEmb filterAsrsType matchCount)
      (text_results ops s qText filterAsrsType matchCount)).map (combineJoined w)

/-- `hybrid_search_fm_global` (src/sql/fix_fm_functions.sql lines
81-207): build both candidate CTEs, full-outer-join them, blend scores,
`ORDER BY c.score DESC`, `LIMIT match_count`. -/
def hybrid_search_fm_global (ops : PgOps) (s : Store) (qEmb : List ℚ) (qText : String)
    (matchCount : Nat) (w : ℚ) (filterAsrsType : Option String) : List ResultRow :=
  (sortByDescQ (fun r => r.combinedScore)
      (combinedRows ops s qEmb qText matchCount w filterAsrsType)).take matchCount

/-- The error taxonomy the specification ascribes to the search layer. -/
inductive SearchError where
  | emptyQuery
  | dimensionMismatch
deriving DecidableEq

/-- A call of `hybrid_search_fm_global` as observed by a caller.  The
PL/pgSQL body (fix_fm_functions.sql lines 102-207) contains no RAISE
statement and no input validation, so every call returns a row set;
there is no failure path inside the function body. -/
def hybrid_search_fm_global_call (ops : PgOps) (s : Store) (qEmb : List ℚ) (qText : String)
    (matchCount : Nat) (w : ℚ) (filterAsrsType : Option String) :
    Except SearchError (List ResultRow) :=
  Except.ok (hybrid_search_fm_global ops s qEmb qText matchCount w filterAsrsType)

/-- One output row of `match_fm_global_vectors` (src/unnamed/part_005,
RETURNS TABLE at lines 94-107, minus the jsonb column). -/
structure MatchRow where
  vectorId : Nat
  sourceId : Nat
  sourceType : String
  content : String
  similarity : ℚ
  asrsTopic : Option String
  tableNumber : Option String
  figureNumber : Option String
  referenceTitle : String
deriving DecidableEq

/-- Projection of one `fm_global_vectors` row into a `match_fm_global_vectors`
output row (part_005 lines 112-130); the similarity of a row that
passed the `embedding IS NOT NULL` guard, with `COALESCE(t.title,
f.title, 'N/A')` as the reference title and the part_005 schema's
`table_number` / `figure_number` reference columns. -/
def mkMatchRow (ops : PgOps) (s : Store) (qEmb : List ℚ) (v : VectorRow) : MatchRow :=
  { vectorId := v.id
    sourceId := v.sourceId
    sourceType := v.sourceType
    content := v.content
    similarity := ((distOpt ops qEmb v).map (fun d => 1 - d)).getD 0
    asrsTopic := v.asrsTopic
    tableNumber := if v.sourceType = "table" then (tableFor s v).map (fun t => t.tableNumber)
      else none
    figureNumber := if v.sourceType = "figure" then (figureFor s v).map (fun f => f.figureNumber)
      else none
    referenceTitle :=
      (coalesceO ((tableFor s v).map (fun t => t.title))
        ((figureFor s v).map (fun f => f.title))).getD "N/A" }

/-- The WHERE clause of `match_fm_global_vectors` (part_005 lines
134-136): `embedding IS NOT NULL` and the optional topic / source-type
filters. -/
def matchFilterOk (topicFilter sourceTypeFilter : Option String) (v : VectorRow) : Bool :=
  v.embedding.isSome
    && (match topicFilter with
        | none => true
        | some fl => v.asrsTopic == some fl)
    && (match sourceTypeFilter with
        | none => true
        | some fl => v.sourceType == fl)

/-- `match_fm_global_vectors` (src/unnamed/part_005 lines 88-140): pure
vector search with the `embedding IS NOT NULL` guard, `ORDER BY
v.embedding <=> query_embedding`, `LIMIT match_count`. -/
def match_fm_global_vectors (ops : PgOps) (s : Store) (qEmb : List ℚ) (matchCount : Nat)
    (topicFilter sourceTypeFilter : Option String) : List MatchRow :=
  ((sortByNullsLastAsc (distOpt ops qEmb)
      (s.vectors.filter (matchFilterOk topicFilter sourceTypeFilter))).take matchCount).map
    (mkMatchRow ops s qEmb)

/-- A row of `fm_text_chunks` (schema: src/unnamed/part_003; the fields
`search_fm_global_all` reads). -/
structure ChunkRow where
  id : Nat
  docId : String
  rawText : String
  embedding : Option (List ℚ)
  chunkSummary : Option String
deriving DecidableEq

/-- A row of `fm_table_vectors` (the fields `search_fm_global_all` reads). -/
structure TableVecRow where
  id : Nat
  contentType : String
  contentText : String
  embedding : Option (List ℚ)
  tableId : String
deriving DecidableEq

/-- One output row of `search_fm_global_all` (src/unnamed/part_006 lines
6-13, minus the jsonb metadata column). -/
structure AllRow where
  sourceId : Nat
  sourceType : String
  sourceTable : String
  content : String
  similarity : ℚ
  title : String
deriving DecidableEq

/-- The three stores `search_fm_global_all` reads. -/
structure AllStores where
  textChunks : List ChunkRow
  tableVectors : List TableVecRow
  globalVectors : List VectorRow
deriving DecidableEq

/-- `search_fm_global_all` (src/unnamed/part_006 lines 2-80): per-table
CTEs each guarded by `embedding IS NOT NULL`, `UNION ALL`, `ORDER BY
similarity DESC`, `LIMIT match_count`.  `filterMap` over the embedding
realizes the IS NOT NULL guard together with the projection. -/
def search_fm_global_all (ops : PgOps) (st : AllStores) (qEmb : List ℚ)
    (matchCount : Nat) : List AllRow :=
  let chunk_results : List AllRow := st.textChunks.filterMap (fun c =>
    c.embedding.map (fun e =>
      { sourceId := c.id
        sourceType := "text"
        sourceTable := "fm_text_chunks"
        content := c.rawText
        similarity := 1 - ops.cosDist e qEmb
        title := c.chunkSummary.getD ("Chunk from " ++ c.docId) }))
  let table_results : List AllRow := st.tableVectors.filterMap (fun tv =>
    tv.embedding.map (fun e =>
      { sourceId := tv.id
        sourceType := tv.contentType
        sourceTable := "fm_table_vectors"
        content := tv.contentText
        similarity := 1 - ops.cosDist e qEmb
        title := "Table " ++ tv.tableId }))
  let vector_results_all : List AllRow := st.globalVectors.filterMap (fun v =>
    v.embedding.map (fun e =>
      { sourceId := v.id
        sourceType := v.sourceType
        sourceTable := "fm_global_vectors"
        content := v.content
        similarity := 1 - ops.cosDist e qEmb
        title := "FM Global Vector" }))
  (sortByDescQ (fun r => r.similarity)
      (chunk_results ++ table_results ++ vector_results_all)).take matchCount

/-!
TypeScript agent (src/unnamed/part_000, class FMGlobal834Agent).

Each Supabase query response is modelled as `Except String (List row)`:
`.error e` when the query's `error` field is set, `.ok data` otherwise.
The source's per-collection searchers each do `if (error) throw error`,
and `searchMultiVector` awaits all three through `Promise.all` with no
try/catch, so a rejected sub-search rejects the whole call.  The
undefined relevance-scoring methods (`calculateFigureRelevance` etc.)
and the LLM response generation are external to the shown source and
are passed as parameters; JSON field enrichment irrelevant to the
claims is reduced to the similarity/number fields.
-/

/-- A `fm_global_figures` row as the TS agent's figures query returns it
(with the computed `similarity` column). -/
structure FigQueryRow where
  figureNumber : String
  title : String
  pageNumber : Nat
  similarity : ℚ
deriving DecidableEq

/-- A `fm_table_vectors` row as the TS agent's table-vector query
returns it. -/
structure TableVecQueryRow where
  tableId : String
  contentText : String
  similarity : ℚ
deriving DecidableEq

/-- A `fm_text_chunks` row as the TS agent's text query returns it. -/
structure ChunkQueryRow where
  rawText : String
  pageNumber : Nat
  similarity : ℚ
deriving DecidableEq

/-- A `fm_global_tables` metadata row used by the enrichment lookup in
`searchTableVectors`. -/
structure TableMetaRow where
  tableId : String
  tableNumber : String
  title : String
deriving DecidableEq

instance {ε α : Type} [DecidableEq ε] [DecidableEq α] : DecidableEq (Except ε α) := fun a b =>
  match a, b with
  | Except.error e, Except.error f =>
      if h : e = f then isTrue (by rw [h]) else isFalse (fun hh => h (Except.error.inj hh))
  | Except.ok x, Except.ok y =>
      if h : x = y then isTrue (by rw [h]) else isFalse (fun hh => h (Except.ok.inj hh))
  | Except.error _, Except.ok _ => isFalse (fun hh => Except.noConfusion hh)
  | Except.ok _, Except.error _ => isFalse (fun hh => Except.noConfusion hh)

/-- The database as the TS agent sees it: one response per Supabase
query.  `tablesMeta` is the second, unchecked query of
`searchTableVectors` (its `error` field is never inspected in the
source; a failed response leaves `tableData` undefined, modelled as
`none`). -/
structure AgentDB where
  figuresQuery : Except String (List FigQueryRow)
  tableVectorsQuery : Except String (List TableVecQueryRow)
  textChunksQuery : Except String (List ChunkQueryRow)
  tablesMeta : Option (List TableMetaRow)
deriving DecidableEq

/-- A figure search result (part_000 lines 291-299, fields relevant to
the claims). -/
structure FigureResult where
  figureNumber : String
  title : String
  pageNumber : Nat
  similarity : ℚ
deriving DecidableEq

/-- A table search result (part_000 lines 322-333). -/
structure TableResult where
  tableNumber : Option String
  title : Option String
  content : String
  similarity : ℚ
deriving DecidableEq

/-- A regulation/text search result (part_000 lines 348-355). -/
structure RegulationResult where
  content : String
  pageNumber : Nat
  similarity : ℚ
deriving DecidableEq

/-- `searchFigureVectors` (part_000 lines 270-300): query the figures
table; `if (error) throw error`, otherwise map rows to results. -/
def searchFigureVectors (db : AgentDB) : Except String (List FigureResult) :=
  match db.figuresQuery with
  | Except.error e => Except.error e
  | Except.ok data => Except.ok (data.map (fun row =>
      { figureNumber := row.figureNumber
        title := row.title
        pageNumber := row.pageNumber
        similarity := row.similarity }))

/-- `searchTableVectors` (part_000 lines 302-334): query the table
vectors (`if (error) throw error`), then enrich each row from the
unchecked `fm_global_tables` metadata query (`tableData?.find(...)`
yields undefined fields on a miss). -/
def searchTableVectors (db : AgentDB) : Except String (List TableResult) :=
  match db.tableVectorsQuery with
  | Except.error e => Except.error e
  | Except.ok data => Except.ok (data.map (fun row =>
      let tableRow : Option TableMetaRow :=
        db.tablesMeta.bind (fun md => md.find? (fun t => t.tableId == row.tableId))
      { tableNumber := tableRow.map (fun t => t.tableNumber)
        title := tableRow.map (fun t => t.title)
        content := row.contentText
        similarity := row.similarity }))

/-- `searchTextVectors` (part_000 lines 336-356): query the text
chunks; `if (error) throw error`, otherwise map rows to results. -/
def searchTextVectors (db : AgentDB) : Except String (List RegulationResult) :=
  match db.textChunksQuery with
  | Except.error e => Except.error e
  | Except.ok data => Except.ok (data.map (fun row =>
      { content := row.rawText
        pageNumber := row.pageNumber
        similarity := row.similarity }))

/-- One fused result (part_000 lines 358-375): a tagged source with the
relevance score its (externally defined) scoring function assigned. -/
structure FusedResult where
  kind : String
  relevanceScore : ℚ
deriving DecidableEq

/-- The undefined relevance-scoring methods the fusion step calls
(`calculateFigureRelevance`, `calculateTableRelevance`,
`calculateTextRelevance` are referenced but not defined in the shown
source); passed as parameters. -/
structure RelOps where
  figureRelevance : FigureResult → ℚ
  tableRelevance : TableResult → ℚ
  textRelevance : RegulationResult → ℚ

/-- `fuseAndRankResults` (part_000 lines 358-375): tag and score all
results, sort by relevance score descending, keep the top 15. -/
def fuseAndRankResults (rel : RelOps) (figures : List FigureResult)
    (tables : List TableResult) (texts : List RegulationResult) : List FusedResult :=
  let allResults : List FusedResult :=
    figures.map (fun f => { kind := "figure", relevanceScore := rel.figureRelevance f })
      ++ tables.map (fun t => { kind := "table", relevanceScore := rel.tableRelevance t })
      ++ texts.map (fun r => { kind := "regulation", relevanceScore := rel.textRelevance r })
  (sortByDescQ (fun r => r.relevanceScore) allResults).take 15

/-- The value `searchMultiVector` resolves with (part_000 lines
260-267; the LLM-generated answer and cost estimation are external and
omitted). -/
structure MultiSearchResult where
  sources : List FusedResult
  relatedFigures : List String
  relatedTables : List (Option String)
deriving DecidableEq

/-- `searchMultiVector` (part_000 lines 240-268): `Promise.all` over the
three per-collection searchers — a rejection of any one rejects the
whole call (there is no try/catch) — then fusion and ranking. -/
def searchMultiVector (rel : RelOps) (db : AgentDB) : Except String MultiSearchResult :=
  match searchFigureVectors db, searchTableVectors db, searchTextVectors db with
  | Except.error e, _, _ => Except.error e
  | _, Except.error e, _ => Except.error e
  | _, _, Except.error e => Except.error e
  | Except.ok figureResults, Except.ok tableResults, Except.ok textResults =>
      Except.ok
        { sources := fuseAndRankResults rel figureResults tableResults textResults
          relatedFigures := figureResults.map (fun r => r.figureNumber)
          relatedTables := tableResults.map (fun r => r.tableNumber) }

/-! Specification-side definitions and claim statements, together with
concrete fixtures.  `dotQ` is the dot product; for unit-norm vectors the
pgvector cosine distance `<=>` equals `1 - dotQ`, which `cosDistUnit`
captures; all fixture embeddings are unit vectors.  The declared
dimensionality `vector(1536)` is enforced by pgvector outside the
function bodies, which are dimension-generic, so the fixtures use
dimension-2 unit vectors. -/

def dotQ (a b : List ℚ) : ℚ := (List.zipWith (fun x y => x * y) a b).sum

/-- The pgvector `<=>` cosine distance restricted to unit-norm
vectors: `1 - (a . b) / (norm a * norm b) = 1 - dotQ a b`. -/
def cosDistUnit (a b : List ℚ) : ℚ := 1 - dotQ a b

/-- The maximum lexical relevance observed in a result set, 0 when the
set is empty (the normalizer the specification prescribes). -/
def maxLex (rows : List ResultRow) : ℚ :=
  rows.foldr (fun r m => max r.textSimilarity m) 0

/-- Claim C1 as stated: every returned combined score blends the vector
similarity with the lexical relevance normalized by the maximum lexical
relevance of the current candidate set (0 when that set is empty). -/
def claimC1 (ops : PgOps) (s : Store) (qEmb : List ℚ) (qText : String)
    (n : Nat) (w : ℚ) (fl : Option String) : Prop :=
  ∀ r ∈ hybrid_search_fm_global ops s qEmb qText n w fl,
    r.combinedScore
      = r.vectorSimilarity * (1 - w)
        + (if maxLex (combinedRows ops s qEmb qText n w fl) = 0 then 0
            else r.textSimilarity / maxLex (combinedRows ops s qEmb qText n w fl)) * w

/-- Claim C3 as stated: descending by combined score with ties broken by
record identifier ascending, length at most N, and top-N by combined
score. -/
def claimC3 (ops : PgOps) (s : Store) (qEmb : List ℚ) (qText : String)
    (n : Nat) (w : ℚ) (fl : Option String) : Prop :=
  List.Pairwise
      (fun a b => b.combinedScore < a.combinedScore
        ∨ (b.combinedScore = a.combinedScore ∧ a.vectorId < b.vectorId))
      (hybrid_search_fm_global ops s qEmb qText n w fl)
    ∧ (hybrid_search_fm_global ops s qEmb qText n w fl).length ≤ n
    ∧ ∀ a ∈ hybrid_search_fm_global ops s qEmb qText n w fl,
        ∀ b ∈ combinedRows ops s qEmb qText n w fl,
          a.combinedScore < b.combinedScore
            → b ∈ hybrid_search_fm_global ops s qEmb qText n w fl

/-- Claim C4 as stated: every result's vector similarity and combined
score lie in the closed interval from 0 to 1. -/
def claimC4 (ops : PgOps) (s : Store) (qEmb : List ℚ) (qText : String)
    (n : Nat) (w : ℚ) (fl : Option String) : Prop :=
  ∀ r ∈ hybrid_search_fm_global ops s qEmb qText n w fl,
    0 ≤ r.vectorSimilarity ∧ r.vectorSimilarity ≤ 1
      ∧ 0 ≤ r.combinedScore ∧ r.combinedScore ≤ 1

/-- A query text that is empty or whitespace-only (equivalently, empty
after trimming). -/
def isBlank (s : String) : Bool :=
  s.toList.all Char.isWhitespace

/-- Claim C5 as stated: a query text that is empty after trimming makes
the (hybrid) search fail with the EmptyQuery error rather than return a
result list. -/
def claimC5 : Prop :=
  ∀ (ops : PgOps) (s : Store) (qEmb : List ℚ) (qText : String)
    (n : Nat) (w : ℚ) (fl : Option String),
    isBlank qText = true
      → hybrid_search_fm_global_call ops s qEmb qText n w fl
          = Except.error SearchError.emptyQuery

/-- A legal execution of the tail of `hybrid_search_fm_global`
(fix_fm_functions.sql lines 204-205): SQL's `ORDER BY c.score DESC
LIMIT match_count` fixes only that the output is the first
`match_count` rows of SOME arrangement of the combined CTE's rows that
descends by combined score — the order among tied scores is
unspecified, so several outputs are legal on the same inputs.  The
deterministic function `hybrid_search_fm_global` realizes one of them. -/
def hybridExecution (ops : PgOps) (s : Store) (qEmb : List ℚ) (qText : String)
    (n : Nat) (w : ℚ) (fl : Option String) (out : List ResultRow) : Prop :=
  ∃ l : List ResultRow,
    l.Perm (combinedRows ops s qEmb qText n w fl)
    ∧ List.Pairwise (fun a b => b.combinedScore ≤ a.combinedScore) l
    ∧ out = l.take n

/-- Claim C7 as stated: for a fixed content store state, repeated
identical calls return byte-identical ordered result lists — that is,
any two legal executions on the same inputs return the same list. -/
def claimC7 : Prop :=
  ∀ (ops : PgOps) (s : Store) (qEmb : List ℚ) (qText : String)
    (n : Nat) (w : ℚ) (fl : Option String) (out1 out2 : List ResultRow),
    hybridExecution ops s qEmb qText n w fl out1
    → hybridExecution ops s qEmb qText n w fl out2
    → out1 = out2

/-- Claim C9 as stated: when the figure sub-search fails but the other
two collections respond, the multi-collection search still succeeds
(returns the results of the unaffected collections, does not raise). -/
def claimC9 : Prop :=
  ∀ (rel : RelOps) (db : AgentDB) (e : String)
    (tbls : List TableVecQueryRow) (txts : List ChunkQueryRow),
    db.figuresQuery = Except.error e
      → db.tableVectorsQuery = Except.ok tbls
      → db.textChunksQuery = Except.ok txts
      → ∃ res, searchMultiVector rel db = Except.ok res

/-! Concrete fixtures. -/

/-- Fixture operators: unit-vector cosine distance; the text query
`"aisle"` matches every stored content (each fixture content contains
the token), any other fixture query matches nothing; a uniform
ts_rank of 1/2. -/
def opsDemo : PgOps :=
  { cosDist := cosDistUnit
    tsMatch := fun _ q => q == "aisle"
    tsRank := fun _ _ => 1/2 }

/-- Fixture operators for witnesses needing the Postgres facts as
hypotheses: constant distance 1 (in [0,2]) and constant rank 1/2. -/
def opsConst : PgOps :=
  { cosDist := fun _ _ => 1
    tsMatch := fun _ _ => true
    tsRank := fun _ _ => 1/2 }

def rowDemo : VectorRow :=
  { id := 1, sourceId := 10, sourceType := "text"
    content := "aisle width requirements", embedding := some [1, 0], asrsTopic := none }

def storeDemo : Store := { vectors := [rowDemo], tables := [], figures := [] }

/-- Two rows with identical embeddings (hence tied scores), scan order
id 2 before id 1. -/
def rowTie2 : VectorRow :=
  { id := 2, sourceId := 20, sourceType := "text"
    content := "aisle width requirements", embedding := some [1, 0], asrsTopic := none }

def rowTie1 : VectorRow :=
  { id := 1, sourceId := 10, sourceType := "text"
    content := "aisle width requirements", embedding := some [1, 0], asrsTopic := none }

def storeTie : Store := { vectors := [rowTie2, rowTie1], tables := [], figures := [] }

/-- A row whose embedding points opposite to the fixture query: cosine
distance 2, similarity -1. -/
def rowNeg : VectorRow :=
  { id := 1, sourceId := 10, sourceType := "text"
    content := "sprinkler clearance", embedding := some [-1, 0], asrsTopic := none }

def storeNeg : Store := { vectors := [rowNeg], tables := [], figures := [] }

/-- Relevance scorers for the TS agent fixtures (the source leaves them
undefined; any instantiation works for the error-propagation claim). -/
def relZero : RelOps :=
  { figureRelevance := fun _ => 0
    tableRelevance := fun _ => 0
    textRelevance := fun _ => 0 }

def tvRowDemo : TableVecQueryRow :=
  { tableId := "T-14", contentText := "shuttle arrangements", similarity := 9/10 }

def chunkQueryDemo : ChunkQueryRow :=
  { rawText := "aisle width requirements", pageNumber := 12, similarity := 4/5 }

/-- A database state where the figures query fails (a missing embedding
index) while the other two collections respond normally. -/
def dbFigFail : AgentDB :=
  { figuresQuery := Except.error "missing index"
    tableVectorsQuery := Except.ok [tvRowDemo]
    textChunksQuery := Except.ok [chunkQueryDemo]
    tablesMeta := some [] }

/-- Fixture stores for `search_fm_global_all`: one chunk with an
embedding, one chunk without, one table vector, one global vector
without an embedding. -/
def chunkDemo : ChunkRow :=
  { id := 31, docId := "fm-8-34", rawText := "aisle width requirements"
    embedding := some [1, 0], chunkSummary := none }

def chunkNoEmb : ChunkRow :=
  { id := 32, docId := "fm-8-34", rawText := "unembedded chunk"
    embedding := none, chunkSummary := some "pending" }

def tableVecDemo : TableVecRow :=
  { id := 41, contentType := "table", contentText := "shuttle arrangements"
    embedding := some [1, 0], tableId := "T-14" }

def gvecNoEmb : VectorRow :=
  { id := 51, sourceId := 50, sourceType := "text"
    content := "unembedded vector", embedding := none, asrsTopic := none }

def allStoresDemo : AllStores :=
  { textChunks := [chunkDemo, chunkNoEmb]
    tableVectors := [tableVecDemo]
    globalVectors := [gvecNoEmb] }

/-- Store for the `match_fm_global_vectors` witness: one embedded row,
one row with a NULL embedding. -/
def storeMixed : Store :=
  { vectors := [rowDemo, gvecNoEmb], tables := [], figures := [] }

/-! Helper lemmas about the sort wrappers and the join. -/

theorem sortByDescQ_sorted {α : Type} (k : α → ℚ) (l : List α) :
    List.Sorted (fun a b => k b ≤ k a) (sortByDescQ k l) :=
  @List.sorted_insertionSort α (fun a b => k b ≤ k a) _
    ⟨fun a b => le_total (k b) (k a)⟩ ⟨fun _ _ _ h1 h2 => le_trans h2 h1⟩ l

theorem sortByDescQ_perm {α : Type} (k : α → ℚ) (l : List α) :
    (sortByDescQ k l).Perm l :=
  List.perm_insertionSort _ l

theorem sortByNullsLastAsc_perm {α : Type} (k : α → Option ℚ) (l : List α) :
    (sortByNullsLastAsc k l).Perm l :=
  List.perm_insertionSort _ l

theorem orderedInsert_keyiff {α : Type} (k kk : α → ℚ) (a : α) :
    ∀ l : List α, (∀ b ∈ l, ((k b ≤ k a) ↔ (kk b ≤ kk a))) →
      List.orderedInsert (fun x y => k y ≤ k x) a l
        = List.orderedInsert (fun x y => kk y ≤ kk x) a l
  | [], _ => rfl
  | b :: t, h => by
      simp only [List.orderedInsert]
      by_cases hb : k b ≤ k a
      · rw [if_pos hb, if_pos ((h b (by simp)).mp hb)]
      · rw [if_neg hb, if_neg (fun hc => hb ((h b (by simp)).mpr hc))]
        rw [orderedInsert_keyiff k kk a t (fun x hx => h x (by simp [hx]))]

theorem sortByDescQ_keyiff {α : Type} (k kk : α → ℚ) :
    ∀ l : List α, (∀ a ∈ l, ∀ b ∈ l, ((k b ≤ k a) ↔ (kk b ≤ kk a))) →
      sortByDescQ k l = sortByDescQ kk l
  | [], _ => rfl
  | a :: t, h => by
      have ht : sortByDescQ k t = sortByDescQ kk t :=
        sortByDescQ_keyiff k kk t (fun x hx y hy => h x (by simp [hx]) y (by simp [hy]))
      simp only [sortByDescQ, List.insertionSort] at ht ⊢
      rw [ht]
      exact orderedInsert_keyiff k kk a _ (fun b hb => by
        have hbt : b ∈ t := (List.perm_insertionSort _ t).mem_iff.mp hb
        exact h a (by simp) b (by simp [hbt]))

theorem combineJoined_score (w : ℚ) (j : JoinedRow) :
    (combineJoined w j).combinedScore
      = (combineJoined w j).vectorSimilarity * (1 - w)
        + (combineJoined w j).textSimilarity * w := by
  cases j <;> rfl

/-- Every row of the `combined` CTE blends its own recorded score
components: `combined_score = vector_similarity * (1 - w) +
text_similarity * w` with the raw, unnormalized text score. -/
theorem combinedRows_score (ops : PgOps) (s : Store) (qEmb : List ℚ) (qText : String)
    (matchCount : Nat) (w : ℚ) (fl : Option String) :
    ∀ r ∈ combinedRows ops s qEmb qText matchCount w fl,
      r.combinedScore = r.vectorSimilarity * (1 - w) + r.textSimilarity * w := by
  intro r hr
  obtain ⟨j, _, rfl⟩ := List.mem_map.mp hr
  exact combineJoined_score w j

theorem hybrid_subset_combinedRows (ops : PgOps) (s : Store) (qEmb : List ℚ) (qText : String)
    (matchCount : Nat) (w : ℚ) (fl : Option String) :
    ∀ r ∈ hybrid_search_fm_global ops s qEmb qText matchCount w fl,
      r ∈ combinedRows ops s qEmb qText matchCount w fl := by
  intro r hr
  have h1 : r ∈ sortByDescQ (fun x => x.combinedScore)
      (combinedRows ops s qEmb qText matchCount w fl) :=
    (List.take_sublist _ _).mem hr
  exact (sortByDescQ_perm _ _).mem_iff.mp h1

theorem mem_vector_results (ops : PgOps) (s : Store) (qEmb : List ℚ)
    (fl : Option String) (n : Nat) :
    ∀ c ∈ vector_results ops s qEmb fl n,
      ∃ v ∈ s.vectors, asrsFilterOk s fl v = true ∧ c = mkVectorCand ops s qEmb v := by
  intro c hc
  obtain ⟨v, hv, rfl⟩ := List.mem_map.mp hc
  have hv2 : v ∈ sortByNullsLastAsc (distOpt ops qEmb) (s.vectors.filter (asrsFilterOk s fl)) :=
    (List.take_sublist _ _).mem hv
  have hv3 : v ∈ s.vectors.filter (asrsFilterOk s fl) :=
    (sortByNullsLastAsc_perm _ _).mem_iff.mp hv2
  have hv4 := List.mem_filter.mp hv3
  exact ⟨v, hv4.1, hv4.2, rfl⟩

theorem mem_text_results (ops : PgOps) (s : Store) (qText : String)
    (fl : Option String) (n : Nat) :
    ∀ c ∈ text_results ops s qText fl n,
      ∃ v ∈ s.vectors, ops.tsMatch v.content qText = true ∧ asrsFilterOk s fl v = true
        ∧ c = mkTextCand ops s qText v := by
  intro c hc
  obtain ⟨v, hv, rfl⟩ := List.mem_map.mp hc
  have hv2 : v ∈ s.vectors.filter
      (fun v => ops.tsMatch v.content qText && asrsFilterOk s fl v) :=
    (List.take_sublist _ _).mem hv
  have hv3 := List.mem_filter.mp hv2
  have hv4 : ops.tsMatch v.content qText = true ∧ asrsFilterOk s fl v = true := by
    simpa using hv3.2
  exact ⟨v, hv3.1, hv4.1, hv4.2, rfl⟩

theorem fullOuterJoin_mem_cases (vr tr : List Cand) :
    ∀ j ∈ fullOuterJoin vr tr,
      (∃ v ∈ vr, ∃ t ∈ tr, t.id = v.id ∧ j = JoinedRow.both v t)
      ∨ (∃ v ∈ vr, j = JoinedRow.vecOnly v)
      ∨ (∃ t ∈ tr, j = JoinedRow.textOnly t) := by
  intro j hj
  rcases List.mem_append.mp hj with h | h
  · obtain ⟨v, hv, hj2⟩ := List.mem_map.mp h
    cases hfind : tr.find? (fun t => t.id == v.id) with
    | some t =>
        rw [hfind] at hj2
        have hp := List.find?_some hfind
        refine Or.inl ⟨v, hv, t, List.mem_of_find?_eq_some hfind, ?_, hj2.symm⟩
        simpa using hp
    | none =>
        rw [hfind] at hj2
        exact Or.inr (Or.inl ⟨v, hv, hj2.symm⟩)
  · obtain ⟨t, ht, hj2⟩ := List.mem_map.mp h
    exact Or.inr (Or.inr ⟨t, (List.filter_sublist _).mem ht, hj2.symm⟩)

/-! Identifier bookkeeping for the deduplication claim. -/

theorem nodup_ids_vector_results (ops : PgOps) (s : Store) (qEmb : List ℚ)
    (fl : Option String) (n : Nat)
    (hN : (s.vectors.map (fun v => v.id)).Nodup) :
    ((vector_results ops s qEmb fl n).map (fun c => c.id)).Nodup := by
  have hfilter : ((s.vectors.filter (asrsFilterOk s fl)).map (fun v => v.id)).Nodup :=
    ((List.filter_sublist _).map _).nodup hN
  have hsort : ((sortByNullsLastAsc (distOpt ops qEmb)
      (s.vectors.filter (asrsFilterOk s fl))).map (fun v => v.id)).Nodup :=
    ((sortByNullsLastAsc_perm _ _).map _).symm.nodup hfilter
  have htake : (((sortByNullsLastAsc (distOpt ops qEmb)
      (s.vectors.filter (asrsFilterOk s fl))).take (n * 2)).map (fun v => v.id)).Nodup := by
    rw [List.map_take]
    exact (List.take_sublist _ _).nodup hsort
  have : (vector_results ops s qEmb fl n).map (fun c => c.id)
      = ((sortByNullsLastAsc (distOpt ops qEmb)
          (s.vectors.filter (asrsFilterOk s fl))).take (n * 2)).map (fun v => v.id) := by
    simp only [vector_results, List.map_map]
    rfl
  rw [this]
  exact htake

theorem nodup_ids_text_results (ops : PgOps) (s : Store) (qText : String)
    (fl : Option String) (n : Nat)
    (hN : (s.vectors.map (fun v => v.id)).Nodup) :
    ((text_results ops s qText fl n).map (fun c => c.id)).Nodup := by
  have hfilter : ((s.vectors.filter
      (fun v => ops.tsMatch v.content qText && asrsFilterOk s fl v)).map
        (fun v => v.id)).Nodup :=
    ((List.filter_sublist _).map _).nodup hN
  have htake : (((s.vectors.filter
      (fun v => ops.tsMatch v.content qText && asrsFilterOk s fl v)).take (n * 2)).map
        (fun v => v.id)).Nodup := by
    rw [List.map_take]
    exact (List.take_sublist _ _).nodup hfilter
  have : (text_results ops s qText fl n).map (fun c => c.id)
      = ((s.vectors.filter
          (fun v => ops.tsMatch v.content qText && asrsFilterOk s fl v)).take (n * 2)).map
            (fun v => v.id) := by
    simp only [text_results, List.map_map]
    rfl
  rw [this]
  exact htake

theorem fullOuterJoin_ids (vr tr : List Cand) :
    (fullOuterJoin vr tr).map joinedId
      = vr.map (fun v => v.id)
        ++ (tr.filter (fun t => !(vr.any (fun v => v.id == t.id)))).map (fun t => t.id) := by
  simp only [fullOuterJoin, List.map_append, List.map_map]
  congr 1
  · apply List.map_congr_left
    intro v _
    cases hfind : tr.find? (fun t => t.id == v.id) <;> simp [hfind, joinedId]

theorem nodup_fullOuterJoin_ids (vr tr : List Cand)
    (hvr : (vr.map (fun v => v.id)).Nodup) (htr : (tr.map (fun t => t.id)).Nodup) :
    ((fullOuterJoin vr tr).map joinedId).Nodup := by
  rw [fullOuterJoin_ids]
  refine List.Nodup.append hvr (((List.filter_sublist _).map _).nodup htr) ?_
  intro a ha hb
  obtain ⟨v, hv, rfl⟩ := List.mem_map.mp ha
  obtain ⟨t, ht, hid⟩ := List.mem_map.mp hb
  have hq := (List.mem_filter.mp ht).2
  have hfalse : (vr.any (fun x => x.id == t.id)) = false := by
    cases h : vr.any (fun x => x.id == t.id) with
    | false => rfl
    | true => rw [h] at hq; simp at hq
  have htrue : (vr.any (fun x => x.id == t.id)) = true :=
    List.any_eq_true.mpr ⟨v, hv, by simp [hid]⟩
  rw [htrue] at hfalse
  cases hfalse

theorem combinedRows_ids (ops : PgOps) (s : Store) (qEmb : List ℚ) (qText : String)
    (n : Nat) (w : ℚ) (fl : Option String) :
    (combinedRows ops s qEmb qText n w fl).map (fun r => r.vectorId)
      = (fullOuterJoin (vector_results ops s qEmb fl n)
          (text_results ops s qText fl n)).map joinedId := by
  simp only [combinedRows, List.map_map]
  apply List.map_congr_left
  intro j _
  cases j <;> rfl

/-- The output identifiers of `hybrid_search_fm_global` are a sublist of
a permutation of the combined CTE's identifiers. -/
theorem nodup_ids_hybrid (ops : PgOps) (s : Store) (qEmb : List ℚ) (qText : String)
    (n : Nat) (w : ℚ) (fl : Option String)
    (hN : (s.vectors.map (fun v => v.id)).Nodup) :
    ((hybrid_search_fm_global ops s qEmb qText n w fl).map (fun r => r.vectorId)).Nodup := by
  have hjoin : ((combinedRows ops s qEmb qText n w fl).map (fun r => r.vectorId)).Nodup := by
    rw [combinedRows_ids]
    exact nodup_fullOuterJoin_ids _ _
      (nodup_ids_vector_results ops s qEmb fl n hN)
      (nodup_ids_text_results ops s qText fl n hN)
  have hsort : ((sortByDescQ (fun r => r.combinedScore)
      (combinedRows ops s qEmb qText n w fl)).map (fun r => r.vectorId)).Nodup :=
    ((sortByDescQ_perm _ _).map _).symm.nodup hjoin
  have : (hybrid_search_fm_global ops s qEmb qText n w fl).map (fun r => r.vectorId)
      = ((sortByDescQ (fun r => r.combinedScore)
          (combinedRows ops s qEmb qText n w fl)).map (fun r => r.vectorId)).take n := by
    simp only [hybrid_search_fm_global, List.map_take]
  rw [this]
  exact (List.take_sublist _ _).nodup hsort

/-! Characterization of the full outer join seen through the output rows. -/

theorem combinedRows_id_from_side (ops : PgOps) (s : Store) (qEmb : List ℚ) (qText : String)
    (n : Nat) (w : ℚ) (fl : Option String) :
    ∀ r ∈ combinedRows ops s qEmb qText n w fl,
      r.vectorId ∈ (vector_results ops s qEmb fl n).map (fun c => c.id)
      ∨ r.vectorId ∈ (text_results ops s qText fl n).map (fun c => c.id) := by
  intro r hr
  obtain ⟨j, hj, rfl⟩ := List.mem_map.mp hr
  rcases fullOuterJoin_mem_cases _ _ j hj with
    ⟨v, hv, t, _, _, rfl⟩ | ⟨v, hv, rfl⟩ | ⟨t, ht, rfl⟩
  · exact Or.inl (List.mem_map.mpr ⟨v, hv, rfl⟩)
  · exact Or.inl (List.mem_map.mpr ⟨v, hv, rfl⟩)
  · exact Or.inr (List.mem_map.mpr ⟨t, ht, rfl⟩)

theorem vector_results_id_in_combined (ops : PgOps) (s : Store) (qEmb : List ℚ)
    (qText : String) (n : Nat) (w : ℚ) (fl : Option String) :
    ∀ c ∈ vector_results ops s qEmb fl n,
      c.id ∈ (combinedRows ops s qEmb qText n w fl).map (fun r => r.vectorId) := by
  intro c hc
  rw [combinedRows_ids, fullOuterJoin_ids]
  exact List.mem_append_left _ (List.mem_map.mpr ⟨c, hc, rfl⟩)

theorem text_results_id_in_combined (ops : PgOps) (s : Store) (qEmb : List ℚ)
    (qText : String) (n : Nat) (w : ℚ) (fl : Option String) :
    ∀ c ∈ text_results ops s qText fl n,
      c.id ∈ (combinedRows ops s qEmb qText n w fl).map (fun r => r.vectorId) := by
  intro c hc
  rw [combinedRows_ids, fullOuterJoin_ids]
  cases hany : (vector_results ops s qEmb fl n).any (fun v => v.id == c.id) with
  | true =>
      obtain ⟨v, hv, hvc⟩ := List.any_eq_true.mp hany
      refine List.mem_append_left _ (List.mem_map.mpr ⟨v, hv, ?_⟩)
      simpa using hvc
  | false =>
      refine List.mem_append_right _ (List.mem_map.mpr ⟨c, ?_, rfl⟩)
      exact List.mem_filter.mpr ⟨hc, by simp [hany]⟩

theorem combinedRows_missing_side_zero (ops : PgOps) (s : Store) (qEmb : List ℚ)
    (qText : String) (n : Nat) (w : ℚ) (fl : Option String) :
    ∀ r ∈ combinedRows ops s qEmb qText n w fl,
      (r.vectorId ∉ (vector_results ops s qEmb fl n).map (fun c => c.id)
        → r.vectorSimilarity = 0)
      ∧ (r.vectorId ∉ (text_results ops s qText fl n).map (fun c => c.id)
        → r.textSimilarity = 0) := by
  intro r hr
  obtain ⟨j, hj, rfl⟩ := List.mem_map.mp hr
  rcases fullOuterJoin_mem_cases _ _ j hj with
    ⟨v, hv, t, ht, hidvt, rfl⟩ | ⟨v, hv, rfl⟩ | ⟨t, ht, rfl⟩
  · constructor
    · intro hnot
      exact absurd (List.mem_map.mpr ⟨v, hv, rfl⟩) hnot
    · intro hnot
      exact absurd (List.mem_map.mpr ⟨t, ht, hidvt⟩) hnot
  · constructor
    · intro hnot
      exact absurd (List.mem_map.mpr ⟨v, hv, rfl⟩) hnot
    · intro _
      rfl
  · constructor
    · intro _
      rfl
    · intro hnot
      exact absurd (List.mem_map.mpr ⟨t, ht, rfl⟩) hnot

/-! Claim C1. -/

/-- The single fused result of the `storeDemo` fixture: vector
similarity 1, raw text score 1/2, blended with w = 1/2 into 3/4. -/
def resDemo : ResultRow :=
  { vectorId := 1, sourceId := 10, sourceType := "text", content := "aisle width requirements"
    combinedScore := 3/4, vectorSimilarity := 1, textSimilarity := 1/2
    asrsTopic := none, tableNumber := none, figureNumber := none, referenceTitle := none }

theorem combined_demo_eval :
    combinedRows opsDemo storeDemo [1, 0] "aisle" 5 (1/2) none = [resDemo] := by
  norm_num [combinedRows, vector_results, text_results, fullOuterJoin,
    sortByNullsLastAsc, List.insertionSort, List.orderedInsert, opsDemo, storeDemo,
    rowDemo, asrsFilterOk, distOpt, mkVectorCand, mkTextCand, combineJoined, cosDistUnit,
    dotQ, tableFor, figureFor, asrsTypeValOf, refNumberOf, refTitleOf, resDemo, coalesceO]

theorem hybrid_demo_eval :
    hybrid_search_fm_global opsDemo storeDemo [1, 0] "aisle" 5 (1/2) none = [resDemo] := by
  rw [hybrid_search_fm_global, combined_demo_eval]
  norm_num [sortByDescQ, List.insertionSort, List.orderedInsert]

/-- C1 is false on the code: with the fixture store, query weight 1/2,
vector similarity 1 and maximum observed text score 1/2, the claimed
normalized blend would give 1 while `hybrid_search_fm_global` returns
3/4 — the function blends the raw `ts_rank` value without normalizing
by the maximum observed relevance (fix_fm_functions.sql line 177). -/
theorem spec_c1_counterexample :
    ¬ claimC1 opsDemo storeDemo [1, 0] "aisle" 5 (1/2) none := by
  intro h
  have hr := h resDemo (by rw [hybrid_demo_eval]; exact List.mem_singleton.mpr rfl)
  rw [combined_demo_eval] at hr
  norm_num [maxLex, resDemo] at hr

/-- C1 amended: every returned combined score blends the vector
similarity with the RAW lexical relevance — `combined_score =
vector_similarity * (1 - w) + text_similarity * w` — with no
normalization of the lexical component (a record absent from one
candidate set contributes 0 for that component, via COALESCE). -/
theorem spec_c1_amended (ops : PgOps) (s : Store) (qEmb : List ℚ) (qText : String)
    (n : Nat) (w : ℚ) (fl : Option String) (r : ResultRow)
    (hr : r ∈ hybrid_search_fm_global ops s qEmb qText n w fl) :
    r.combinedScore = r.vectorSimilarity * (1 - w) + r.textSimilarity * w :=
  combinedRows_score ops s qEmb qText n w fl r
    (hybrid_subset_combinedRows ops s qEmb qText n w fl r hr)

theorem spec_c1_witness :
    resDemo.combinedScore
      = resDemo.vectorSimilarity * (1 - (1/2 : ℚ)) + resDemo.textSimilarity * (1/2 : ℚ) :=
  spec_c1_amended opsDemo storeDemo [1, 0] "aisle" 5 (1/2) none resDemo
    (by rw [hybrid_demo_eval]; exact List.mem_singleton.mpr rfl)

/-! Claim C2. -/

/-- C2: each sub-search fetches at most 2N candidates (`LIMIT
match_count * 2`); the two candidate sets are merged by a full outer
join on record identifier — every fused row's identifier comes from one
of the two sets, every candidate of either set appears among the fused
identifiers, and a record missing from one set contributes 0 for the
missing score component; and, provided the stored record identifiers
are distinct (the `id` column is the primary key), the merged output
and the final result contain each record identifier at most once. -/
theorem spec_c2 (ops : PgOps) (s : Store) (qEmb : List ℚ) (qText : String)
    (n : Nat) (w : ℚ) (fl : Option String)
    (hN : (s.vectors.map (fun v => v.id)).Nodup) :
    (vector_results ops s qEmb fl n).length ≤ 2 * n
    ∧ (text_results ops s qText fl n).length ≤ 2 * n
    ∧ (∀ r ∈ combinedRows ops s qEmb qText n w fl,
        r.vectorId ∈ (vector_results ops s qEmb fl n).map (fun c => c.id)
        ∨ r.vectorId ∈ (text_results ops s qText fl n).map (fun c => c.id))
    ∧ (∀ c ∈ vector_results ops s qEmb fl n,
        c.id ∈ (combinedRows ops s qEmb qText n w fl).map (fun r => r.vectorId))
    ∧ (∀ c ∈ text_results ops s qText fl n,
        c.id ∈ (combinedRows ops s qEmb qText n w fl).map (fun r => r.vectorId))
    ∧ (∀ r ∈ combinedRows ops s qEmb qText n w fl,
        (r.vectorId ∉ (vector_results ops s qEmb fl n).map (fun c => c.id)
          → r.vectorSimilarity = 0)
        ∧ (r.vectorId ∉ (text_results ops s qText fl n).map (fun c => c.id)
          → r.textSimilarity = 0))
    ∧ ((combinedRows ops s qEmb qText n w fl).map (fun r => r.vectorId)).Nodup
    ∧ ((hybrid_search_fm_global ops s qEmb qText n w fl).map (fun r => r.vectorId)).Nodup := by
  refine ⟨?_, ?_, combinedRows_id_from_side ops s qEmb qText n w fl,
    vector_results_id_in_combined ops s qEmb qText n w fl,
    text_results_id_in_combined ops s qEmb qText n w fl,
    combinedRows_missing_side_zero ops s qEmb qText n w fl, ?_,
    nodup_ids_hybrid ops s qEmb qText n w fl hN⟩
  · simp only [vector_results, List.length_map, List.length_take]
    omega
  · simp only [text_results, List.length_map, List.length_take]
    omega
  · rw [combinedRows_ids]
    exact nodup_fullOuterJoin_ids _ _
      (nodup_ids_vector_results ops s qEmb fl n hN)
      (nodup_ids_text_results ops s qText fl n hN)

theorem spec_c2_witness :
    ((hybrid_search_fm_global opsDemo storeDemo [1, 0] "aisle" 5 (1/2) none).map
        (fun r => r.vectorId)).Nodup
    ∧ (vector_results opsDemo storeDemo [1, 0] none 5).length ≤ 2 * 5 := by
  have h := spec_c2 opsDemo storeDemo [1, 0] "aisle" 5 (1/2) none
    (by simp [storeDemo, rowDemo])
  exact ⟨h.2.2.2.2.2.2.2, h.1⟩

/-! Claim C3. -/

/-- The two tied fused rows of the `storeTie` fixture, in scan order
(id 2 first). -/
def resTie2 : ResultRow :=
  { vectorId := 2, sourceId := 20, sourceType := "text", content := "aisle width requirements"
    combinedScore := 7/10, vectorSimilarity := 1, textSimilarity := 0
    asrsTopic := none, tableNumber := none, figureNumber := none, referenceTitle := none }

def resTie1 : ResultRow :=
  { vectorId := 1, sourceId := 10, sourceType := "text", content := "aisle width requirements"
    combinedScore := 7/10, vectorSimilarity := 1, textSimilarity := 0
    asrsTopic := none, tableNumber := none, figureNumber := none, referenceTitle := none }

theorem combined_tie_eval :
    combinedRows opsDemo storeTie [1, 0] "nomatch" 5 (3/10) none = [resTie2, resTie1] := by
  have hne : ("nomatch" == "aisle") = false := by decide
  norm_num [hne, combinedRows, vector_results, text_results, fullOuterJoin,
    sortByNullsLastAsc, List.insertionSort, List.orderedInsert, opsDemo, storeTie,
    rowTie1, rowTie2, asrsFilterOk, distOpt, mkVectorCand, mkTextCand, combineJoined,
    cosDistUnit, dotQ, tableFor, figureFor, asrsTypeValOf, refNumberOf, refTitleOf,
    resTie1, resTie2, coalesceO, optLeNullsLast]

theorem hybrid_tie_eval :
    hybrid_search_fm_global opsDemo storeTie [1, 0] "nomatch" 5 (3/10) none
      = [resTie2, resTie1] := by
  rw [hybrid_search_fm_global, combined_tie_eval]
  norm_num [sortByDescQ, List.insertionSort, List.orderedInsert, resTie1, resTie2]

/-- C3 is false on the code: the final `ORDER BY c.score DESC`
(fix_fm_functions.sql line 204) has no secondary sort key, so two rows
with tied combined scores are not ordered by record identifier — on the
`storeTie` fixture the output is id 2 before id 1 with equal scores. -/
theorem spec_c3_counterexample :
    ¬ claimC3 opsDemo storeTie [1, 0] "nomatch" 5 (3/10) none := by
  intro h
  have h1 := h.1
  rw [hybrid_tie_eval] at h1
  have := List.rel_of_pairwise_cons h1 (List.mem_singleton.mpr rfl)
  norm_num [resTie1, resTie2] at this

/-- C3 amended: the returned list is sorted in descending order of
combined score (ties are left in an unspecified order — the SQL has no
secondary sort key), its length never exceeds N, and it is a top-N
selection: any fused candidate scoring strictly higher than some
returned row is itself returned. -/
theorem spec_c3_amended (ops : PgOps) (s : Store) (qEmb : List ℚ) (qText : String)
    (n : Nat) (w : ℚ) (fl : Option String) :
    List.Sorted (fun a b => b.combinedScore ≤ a.combinedScore)
        (hybrid_search_fm_global ops s qEmb qText n w fl)
    ∧ (hybrid_search_fm_global ops s qEmb qText n w fl).length ≤ n
    ∧ ∀ a ∈ hybrid_search_fm_global ops s qEmb qText n w fl,
        ∀ b ∈ combinedRows ops s qEmb qText n w fl,
          a.combinedScore < b.combinedScore
            → b ∈ hybrid_search_fm_global ops s qEmb qText n w fl := by
  refine ⟨List.Pairwise.sublist (List.take_sublist _ _) (sortByDescQ_sorted _ _), ?_, ?_⟩
  · simp only [hybrid_search_fm_global, List.length_take]
    omega
  · intro a ha b hb hab
    simp only [hybrid_search_fm_global] at ha ⊢
    have hsorted : List.Pairwise (fun x y => y.combinedScore ≤ x.combinedScore)
        (sortByDescQ (fun r => r.combinedScore) (combinedRows ops s qEmb qText n w fl)) :=
      sortByDescQ_sorted _ _
    have hbs : b ∈ sortByDescQ (fun r => r.combinedScore)
        (combinedRows ops s qEmb qText n w fl) :=
      (sortByDescQ_perm _ _).mem_iff.mpr hb
    have hsplit := List.take_append_drop n
      (sortByDescQ (fun r => r.combinedScore) (combinedRows ops s qEmb qText n w fl))
    rw [← hsplit] at hsorted hbs
    have hpw := List.pairwise_append.mp hsorted
    rcases List.mem_append.mp hbs with hbt | hbd
    · exact hbt
    · exact absurd hab (not_lt.mpr (hpw.2.2 a ha b hbd))

theorem spec_c3_witness :
    List.Sorted (fun a b => b.combinedScore ≤ a.combinedScore)
        (hybrid_search_fm_global opsDemo storeTie [1, 0] "nomatch" 5 (3/10) none)
    ∧ (hybrid_search_fm_global opsDemo storeTie [1, 0] "nomatch" 5 (3/10) none).length ≤ 5 :=
  ⟨(spec_c3_amended opsDemo storeTie [1, 0] "nomatch" 5 (3/10) none).1,
    (spec_c3_amended opsDemo storeTie [1, 0] "nomatch" 5 (3/10) none).2.1⟩

/-! Claim C4. -/

/-- The single result of the `storeNeg` fixture: its embedding points
opposite to the query, so the cosine distance is 2 and the similarity
is -1; with w = 3/10 the combined score is -7/10. -/
def resNeg : ResultRow :=
  { vectorId := 1, sourceId := 10, sourceType := "text", content := "sprinkler clearance"
    combinedScore := -(7/10), vectorSimilarity := -1, textSimilarity := 0
    asrsTopic := none, tableNumber := none, figureNumber := none, referenceTitle := none }

theorem hybrid_neg_eval :
    hybrid_search_fm_global opsDemo storeNeg [1, 0] "nomatch" 5 (3/10) none = [resNeg] := by
  have hne : ("nomatch" == "aisle") = false := by decide
  norm_num [hne, hybrid_search_fm_global, combinedRows, vector_results, text_results,
    fullOuterJoin, sortByNullsLastAsc, sortByDescQ, List.insertionSort, List.orderedInsert,
    opsDemo, storeNeg, rowNeg, asrsFilterOk, distOpt, mkVectorCand, mkTextCand,
    combineJoined, cosDistUnit, dotQ, tableFor, figureFor, asrsTypeValOf, refNumberOf,
    refTitleOf, resNeg, coalesceO, optLeNullsLast]

/-- C4 is false on the code: a stored embedding opposite to the query
embedding has pgvector cosine distance 2, so `1 - distance = -1` and
the returned vector similarity and combined score are negative — the
function applies no clamping (fix_fm_functions.sql lines 111, 177). -/
theorem spec_c4_counterexample :
    ¬ claimC4 opsDemo storeNeg [1, 0] "nomatch" 5 (3/10) none := by
  intro h
  have hr := h resNeg (by rw [hybrid_neg_eval]; exact List.mem_singleton.mpr rfl)
  norm_num [resNeg] at hr

theorem combineJoined_both_fields (w : ℚ) (v t : Cand) :
    (combineJoined w (JoinedRow.both v t)).vectorSimilarity = v.score.getD 0
    ∧ (combineJoined w (JoinedRow.both v t)).textSimilarity = t.score.getD 0 :=
  ⟨rfl, rfl⟩

theorem combineJoined_vecOnly_fields (w : ℚ) (v : Cand) :
    (combineJoined w (JoinedRow.vecOnly v)).vectorSimilarity = v.score.getD 0
    ∧ (combineJoined w (JoinedRow.vecOnly v)).textSimilarity = 0 :=
  ⟨rfl, rfl⟩

theorem combineJoined_textOnly_fields (w : ℚ) (t : Cand) :
    (combineJoined w (JoinedRow.textOnly t)).vectorSimilarity = 0
    ∧ (combineJoined w (JoinedRow.textOnly t)).textSimilarity = t.score.getD 0 :=
  ⟨rfl, rfl⟩

theorem vector_results_getD_bounds (ops : PgOps) (s : Store) (qEmb : List ℚ)
    (fl : Option String) (n : Nat)
    (hD : ∀ e q, 0 ≤ ops.cosDist e q ∧ ops.cosDist e q ≤ 2) :
    ∀ c ∈ vector_results ops s qEmb fl n, -1 ≤ c.score.getD 0 ∧ c.score.getD 0 ≤ 1 := by
  intro c hc
  obtain ⟨v, _, _, rfl⟩ := mem_vector_results ops s qEmb fl n c hc
  cases he : v.embedding with
  | none => simp [mkVectorCand, distOpt, he]
  | some e =>
      have h1 := hD e qEmb
      have hsc : (mkVectorCand ops s qEmb v).score = some (1 - ops.cosDist e qEmb) := by
        simp [mkVectorCand, distOpt, he]
      rw [hsc, Option.getD_some]
      constructor <;> linarith [h1.1, h1.2]

theorem text_results_getD_nonneg (ops : PgOps) (s : Store) (qText : String)
    (fl : Option String) (n : Nat)
    (hR : ∀ c q, 0 ≤ ops.tsRank c q) :
    ∀ c ∈ text_results ops s qText fl n, 0 ≤ c.score.getD 0 := by
  intro c hc
  obtain ⟨v, _, _, _, rfl⟩ := mem_text_results ops s qText fl n c hc
  simpa [mkTextCand] using hR v.content qText

/-- C4 amended: given that pgvector cosine distance lies in [0,2], that
ts_rank is non-negative, and a weight in [0,1], every returned row has
vector similarity in [-1,1] (not [0,1]: cosine similarity can be
negative), non-negative text similarity, and a combined score between
-(1-w) and (1-w) + text_similarity * w (not bounded by 1: the lexical
component is unnormalized). -/
theorem spec_c4_amended (ops : PgOps) (s : Store) (qEmb : List ℚ) (qText : String)
    (n : Nat) (w : ℚ) (fl : Option String)
    (hD : ∀ e q, 0 ≤ ops.cosDist e q ∧ ops.cosDist e q ≤ 2)
    (hR : ∀ c q, 0 ≤ ops.tsRank c q)
    (hw0 : 0 ≤ w) (hw1 : w ≤ 1) :
    ∀ r ∈ hybrid_search_fm_global ops s qEmb qText n w fl,
      -1 ≤ r.vectorSimilarity ∧ r.vectorSimilarity ≤ 1 ∧ 0 ≤ r.textSimilarity
        ∧ -(1 - w) ≤ r.combinedScore
        ∧ r.combinedScore ≤ (1 - w) + r.textSimilarity * w := by
  intro r hr
  have hrc := hybrid_subset_combinedRows ops s qEmb qText n w fl r hr
  obtain ⟨j, hj, rfl⟩ := List.mem_map.mp hrc
  have hscore := combineJoined_score w j
  have hcore : -1 ≤ (combineJoined w j).vectorSimilarity
      ∧ (combineJoined w j).vectorSimilarity ≤ 1
      ∧ 0 ≤ (combineJoined w j).textSimilarity := by
    rcases fullOuterJoin_mem_cases _ _ j hj with
      ⟨v, hv, t, ht, _, rfl⟩ | ⟨v, hv, rfl⟩ | ⟨t, ht, rfl⟩
    · have hvb := vector_results_getD_bounds ops s qEmb fl n hD v hv
      have htb := text_results_getD_nonneg ops s qText fl n hR t ht
      rw [(combineJoined_both_fields w v t).1, (combineJoined_both_fields w v t).2]
      exact ⟨hvb.1, hvb.2, htb⟩
    · have hvb := vector_results_getD_bounds ops s qEmb fl n hD v hv
      rw [(combineJoined_vecOnly_fields w v).1, (combineJoined_vecOnly_fields w v).2]
      exact ⟨hvb.1, hvb.2, le_refl 0⟩
    · have htb := text_results_getD_nonneg ops s qText fl n hR t ht
      rw [(combineJoined_textOnly_fields w t).1, (combineJoined_textOnly_fields w t).2]
      exact ⟨by norm_num, by norm_num, htb⟩
  obtain ⟨hv1, hv2, ht0⟩ := hcore
  refine ⟨hv1, hv2, ht0, ?_, ?_⟩
  · rw [hscore]
    nlinarith [mul_le_mul_of_nonneg_right hv1 (by linarith : (0:ℚ) ≤ 1 - w),
      mul_nonneg ht0 hw0]
  · rw [hscore]
    nlinarith [mul_le_mul_of_nonneg_right hv2 (by linarith : (0:ℚ) ≤ 1 - w)]

/-- The single result of `storeDemo` under the constant-distance
operators `opsConst`: similarity 0, text score 1/2, blended with
w = 3/10 into 3/20. -/
def resConst : ResultRow :=
  { vectorId := 1, sourceId := 10, sourceType := "text", content := "aisle width requirements"
    combinedScore := 3/20, vectorSimilarity := 0, textSimilarity := 1/2
    asrsTopic := none, tableNumber := none, figureNumber := none, referenceTitle := none }

theorem hybrid_const_eval :
    hybrid_search_fm_global opsConst storeDemo [1, 0] "sprinkler" 5 (3/10) none
      = [resConst] := by
  norm_num [hybrid_search_fm_global, combinedRows, vector_results, text_results,
    fullOuterJoin, sortByNullsLastAsc, sortByDescQ, List.insertionSort, List.orderedInsert,
    opsConst, storeDemo, rowDemo, asrsFilterOk, distOpt, mkVectorCand, mkTextCand,
    combineJoined, tableFor, figureFor, asrsTypeValOf, refNumberOf,
    refTitleOf, resConst, coalesceO, optLeNullsLast]

theorem spec_c4_witness :
    -1 ≤ resConst.vectorSimilarity ∧ resConst.vectorSimilarity ≤ 1
      ∧ 0 ≤ resConst.textSimilarity
      ∧ -(1 - (3/10 : ℚ)) ≤ resConst.combinedScore
      ∧ resConst.combinedScore ≤ (1 - (3/10 : ℚ)) + resConst.textSimilarity * (3/10 : ℚ) :=
  spec_c4_amended opsConst storeDemo [1, 0] "sprinkler" 5 (3/10) none
    (fun e q => by norm_num [opsConst]) (fun c q => by norm_num [opsConst])
    (by norm_num) (by norm_num) resConst
    (by rw [hybrid_const_eval]; exact List.mem_singleton.mpr rfl)

/-! Claim C5. -/

/-- C5 is false on the code: the PL/pgSQL body has no empty-query
check and no RAISE statement; on an empty query text the call returns a
(vector-only) result list instead of failing with EmptyQuery — on the
`storeDemo` fixture it returns one row. -/
theorem spec_c5_counterexample : ¬ claimC5 := by
  intro h
  have hc := h opsDemo storeDemo [1, 0] "" 5 (1/2) none (by decide)
  simp [hybrid_search_fm_global_call] at hc

/-- C5 amended: an empty (or any lexically non-matching) query text
does not raise — Postgres's empty tsquery matches no document, so the
lexical candidate set is empty and the call returns purely
vector-scored rows: each returned row has text similarity 0 and
combined score `vector_similarity * (1 - w)`. -/
theorem spec_c5_amended (ops : PgOps) (s : Store) (qEmb : List ℚ) (qText : String)
    (n : Nat) (w : ℚ) (fl : Option String)
    (hE : ∀ c, ops.tsMatch c qText = false) :
    hybrid_search_fm_global_call ops s qEmb qText n w fl
      = Except.ok (hybrid_search_fm_global ops s qEmb qText n w fl)
    ∧ text_results ops s qText fl n = []
    ∧ ∀ r ∈ hybrid_search_fm_global ops s qEmb qText n w fl,
        r.textSimilarity = 0 ∧ r.combinedScore = r.vectorSimilarity * (1 - w) := by
  have hfil : s.vectors.filter
      (fun v => ops.tsMatch v.content qText && asrsFilterOk s fl v) = [] := by
    rw [List.filter_eq_nil_iff]
    intro v _
    simp [hE v.content]
  have htxt : text_results ops s qText fl n = [] := by
    simp [text_results, hfil]
  refine ⟨rfl, htxt, ?_⟩
  intro r hr
  have hrc := hybrid_subset_combinedRows ops s qEmb qText n w fl r hr
  rw [combinedRows, htxt] at hrc
  simp only [fullOuterJoin, List.find?_nil, List.filter_nil, List.map_nil,
    List.append_nil, List.map_map] at hrc
  obtain ⟨v, _, rfl⟩ := List.mem_map.mp hrc
  have hfields := combineJoined_vecOnly_fields w v
  refine ⟨hfields.2, ?_⟩
  rw [Function.comp_apply, combineJoined_score w (JoinedRow.vecOnly v), hfields.2]
  ring

theorem spec_c5_witness :
    hybrid_search_fm_global_call opsDemo storeDemo [1, 0] "" 5 (1/2) none
      = Except.ok (hybrid_search_fm_global opsDemo storeDemo [1, 0] "" 5 (1/2) none)
    ∧ text_results opsDemo storeDemo "" none 5 = [] :=
  ⟨(spec_c5_amended opsDemo storeDemo [1, 0] "" 5 (1/2) none (fun _ => rfl)).1,
    (spec_c5_amended opsDemo storeDemo [1, 0] "" 5 (1/2) none (fun _ => rfl)).2.1⟩

/-! Claim C6. -/

/-- C6: with w = 0 the output equals ranking the fused candidate set by
vector similarity alone; with w = 1 (and a positive maximum lexical
score) it equals ranking by the max-normalized lexical score — the
code ranks by the raw score, and dividing by a positive constant
preserves the order. -/
theorem spec_c6 (ops : PgOps) (s : Store) (qEmb : List ℚ) (qText : String)
    (n : Nat) (fl : Option String) :
    (hybrid_search_fm_global ops s qEmb qText n 0 fl
      = (sortByDescQ (fun r => r.vectorSimilarity)
          (combinedRows ops s qEmb qText n 0 fl)).take n)
    ∧ (0 < maxLex (combinedRows ops s qEmb qText n 1 fl)
      → hybrid_search_fm_global ops s qEmb qText n 1 fl
        = (sortByDescQ
            (fun r => r.textSimilarity / maxLex (combinedRows ops s qEmb qText n 1 fl))
            (combinedRows ops s qEmb qText n 1 fl)).take n) := by
  constructor
  · rw [hybrid_search_fm_global]
    congr 1
    apply sortByDescQ_keyiff
    intro a ha b hb
    simp only [combinedRows_score ops s qEmb qText n 0 fl a ha,
      combinedRows_score ops s qEmb qText n 0 fl b hb]
    constructor <;> intro h <;> linarith
  · intro hM
    rw [hybrid_search_fm_global]
    congr 1
    apply sortByDescQ_keyiff
    intro a ha b hb
    simp only [combinedRows_score ops s qEmb qText n 1 fl a ha,
      combinedRows_score ops s qEmb qText n 1 fl b hb]
    rw [div_le_div_iff_of_pos_right hM]
    constructor <;> intro h <;> linarith

theorem spec_c6_witness :
    (0 : ℚ) < maxLex (combinedRows opsDemo storeDemo [1, 0] "aisle" 5 1 none)
    ∧ hybrid_search_fm_global opsDemo storeDemo [1, 0] "aisle" 5 1 none
      = (sortByDescQ
          (fun r => r.textSimilarity / maxLex (combinedRows opsDemo storeDemo [1, 0] "aisle" 5 1 none))
          (combinedRows opsDemo storeDemo [1, 0] "aisle" 5 1 none)).take 5 := by
  have hM : (0 : ℚ) < maxLex (combinedRows opsDemo storeDemo [1, 0] "aisle" 5 1 none) := by
    norm_num [maxLex, combinedRows, vector_results, text_results, fullOuterJoin,
      sortByNullsLastAsc, List.insertionSort, List.orderedInsert, opsDemo, storeDemo,
      rowDemo, asrsFilterOk, distOpt, mkVectorCand, mkTextCand, combineJoined, cosDistUnit,
      dotQ, tableFor, figureFor, asrsTypeValOf, refNumberOf, refTitleOf, coalesceO]
  exact ⟨hM, (spec_c6 opsDemo storeDemo [1, 0] "aisle" 5 none).2 hM⟩

/-! Claim C7. -/

theorem hybridExecution_default (ops : PgOps) (s : Store) (qEmb : List ℚ) (qText : String)
    (n : Nat) (w : ℚ) (fl : Option String) :
    hybridExecution ops s qEmb qText n w fl
      (hybrid_search_fm_global ops s qEmb qText n w fl) :=
  ⟨sortByDescQ (fun r => r.combinedScore) (combinedRows ops s qEmb qText n w fl),
    sortByDescQ_perm _ _, sortByDescQ_sorted _ _, rfl⟩

theorem tieExecution_left :
    hybridExecution opsDemo storeTie [1, 0] "nomatch" 5 (3/10) none [resTie2, resTie1] := by
  have h := hybridExecution_default opsDemo storeTie [1, 0] "nomatch" 5 (3/10) none
  rwa [hybrid_tie_eval] at h

theorem tieExecution_right :
    hybridExecution opsDemo storeTie [1, 0] "nomatch" 5 (3/10) none [resTie1, resTie2] := by
  refine ⟨[resTie1, resTie2], ?_, ?_, rfl⟩
  · rw [combined_tie_eval]
    exact List.Perm.swap resTie2 resTie1 []
  · norm_num [resTie1, resTie2]

/-- C7 is false on the code: the final `ORDER BY c.score DESC`
(fix_fm_functions.sql line 204) has no secondary sort key, so on the
`storeTie` fixture — two rows tied at combined score 7/10 — both
[id 2, id 1] and [id 1, id 2] are legal executions of the same call on
the same store, and they are not identical; byte-identical output
across repeated identical calls is not guaranteed by the code. -/
theorem spec_c7_counterexample : ¬ claimC7 := by
  intro h
  have heq := h opsDemo storeTie [1, 0] "nomatch" 5 (3/10) none
    [resTie2, resTie1] [resTie1, resTie2] tieExecution_left tieExecution_right
  norm_num [resTie1, resTie2] at heq

/-- C7 amended: for a fixed content store state and identical inputs,
the search is deterministic up to tie order — any two legal executions
return lists of the same length carrying the same combined-score
sequence; only the arrangement of rows with tied scores (and which
tied rows survive a truncation cutting through a tie group) is
unspecified. -/
theorem spec_c7_amended (ops : PgOps) (s : Store) (qEmb : List ℚ) (qText : String)
    (n : Nat) (w : ℚ) (fl : Option String) (out1 out2 : List ResultRow)
    (h1 : hybridExecution ops s qEmb qText n w fl out1)
    (h2 : hybridExecution ops s qEmb qText n w fl out2) :
    out1.length = out2.length
    ∧ out1.map (fun r => r.combinedScore) = out2.map (fun r => r.combinedScore) := by
  obtain ⟨l1, hp1, hs1, rfl⟩ := h1
  obtain ⟨l2, hp2, hs2, rfl⟩ := h2
  have hlen : l1.length = l2.length := (hp1.trans hp2.symm).length_eq
  constructor
  · simp [List.length_take, hlen]
  · have hperm : (l1.map (fun r => r.combinedScore)).Perm
        (l2.map (fun r => r.combinedScore)) :=
      (hp1.trans hp2.symm).map _
    have hs1m : List.Pairwise (fun x y : ℚ => y ≤ x)
        (l1.map (fun r => r.combinedScore)) := by
      rw [List.pairwise_map]
      exact hs1
    have hs2m : List.Pairwise (fun x y : ℚ => y ≤ x)
        (l2.map (fun r => r.combinedScore)) := by
      rw [List.pairwise_map]
      exact hs2
    have heq : l1.map (fun r => r.combinedScore) = l2.map (fun r => r.combinedScore) :=
      @List.eq_of_perm_of_sorted ℚ (fun x y => y ≤ x)
        ⟨fun _ _ ha hb => le_antisymm hb ha⟩ _ _ hperm hs1m hs2m
    rw [List.map_take, List.map_take, heq]

theorem spec_c7_witness :
    ([resTie2, resTie1] : List ResultRow).length = ([resTie1, resTie2] : List ResultRow).length
    ∧ ([resTie2, resTie1] : List ResultRow).map (fun r => r.combinedScore)
      = ([resTie1, resTie2] : List ResultRow).map (fun r => r.combinedScore) :=
  spec_c7_amended opsDemo storeTie [1, 0] "nomatch" 5 (3/10) none
    [resTie2, resTie1] [resTie1, resTie2] tieExecution_left tieExecution_right

/-! Claim C8. -/

/-- C8: every record in the lexical candidate set satisfies the
text-search match predicate against the query — the `text_results` CTE
filters by `to_tsvector(content) @@ plainto_tsquery(query_text)`
(fix_fm_functions.sql line 165), so no zero-match record appears. -/
theorem spec_c8 (ops : PgOps) (s : Store) (qText : String) (fl : Option String) (n : Nat) :
    ∀ c ∈ text_results ops s qText fl n, ops.tsMatch c.content qText = true := by
  intro c hc
  obtain ⟨v, _, hm, _, rfl⟩ := mem_text_results ops s qText fl n c hc
  simpa [mkTextCand] using hm

theorem spec_c8_witness :
    opsDemo.tsMatch (mkTextCand opsDemo storeDemo "aisle" rowDemo).content "aisle" = true :=
  spec_c8 opsDemo storeDemo "aisle" none 5 (mkTextCand opsDemo storeDemo "aisle" rowDemo)
    (by norm_num [text_results, opsDemo, storeDemo, rowDemo, asrsFilterOk])

/-! Claim C9. -/

/-- C9 is false on the code: each per-collection searcher does
`if (error) throw error` and `searchMultiVector` awaits all three
through `Promise.all` with no try/catch (part_000 lines 248-252,
288-289, 313, 346), so a failing figures query rejects the whole call —
on the `dbFigFail` fixture the other two collections respond with
results, yet the call returns the error instead of a result. -/
theorem spec_c9_counterexample : ¬ claimC9 := by
  intro h
  obtain ⟨res, hres⟩ :=
    h relZero dbFigFail "missing index" [tvRowDemo] [chunkQueryDemo] rfl rfl rfl
  simp [searchMultiVector, searchFigureVectors, dbFigFail] at hres

/-- C9 amended: if the figures sub-search fails, its error propagates
and the whole `searchMultiVector` call fails with that error; no
partial results from the unaffected collections are returned. -/
theorem spec_c9_amended (rel : RelOps) (db : AgentDB) (e : String)
    (hf : db.figuresQuery = Except.error e) :
    searchMultiVector rel db = Except.error e := by
  simp [searchMultiVector, searchFigureVectors, hf]

theorem spec_c9_witness :
    searchMultiVector relZero dbFigFail = Except.error "missing index" :=
  spec_c9_amended relZero dbFigFail "missing index" rfl

/-! Claim C10. -/

/-- C10: every row returned by `match_fm_global_vectors` (part_005,
`WHERE v.embedding IS NOT NULL`, line 134) and by
`search_fm_global_all` (part_006, `WHERE ... embedding IS NOT NULL` in
each of its three CTEs, lines 36, 50, 64) originates from a stored
record whose embedding is non-NULL; records without an embedding are
silently excluded. -/
theorem spec_c10 (ops : PgOps) (s : Store) (st : AllStores) (qEmb : List ℚ) (n : Nat)
    (tf sf : Option String) :
    (∀ r ∈ match_fm_global_vectors ops s qEmb n tf sf,
      ∃ v ∈ s.vectors, v.id = r.vectorId ∧ v.embedding ≠ none)
    ∧ (∀ r ∈ search_fm_global_all ops st qEmb n,
      (∃ c ∈ st.textChunks,
        c.id = r.sourceId ∧ c.embedding ≠ none ∧ r.sourceTable = "fm_text_chunks")
      ∨ (∃ tv ∈ st.tableVectors,
        tv.id = r.sourceId ∧ tv.embedding ≠ none ∧ r.sourceTable = "fm_table_vectors")
      ∨ (∃ v ∈ st.globalVectors,
        v.id = r.sourceId ∧ v.embedding ≠ none ∧ r.sourceTable = "fm_global_vectors")) := by
  constructor
  · intro r hr
    obtain ⟨v, hv, rfl⟩ := List.mem_map.mp hr
    have hv2 : v ∈ sortByNullsLastAsc (distOpt ops qEmb)
        (s.vectors.filter (matchFilterOk tf sf)) :=
      (List.take_sublist _ _).mem hv
    have hv3 := List.mem_filter.mp ((sortByNullsLastAsc_perm _ _).mem_iff.mp hv2)
    have hok : v.embedding.isSome = true := by
      have := hv3.2
      simp only [matchFilterOk, Bool.and_eq_true] at this
      exact this.1.1
    refine ⟨v, hv3.1, rfl, ?_⟩
    exact Option.isSome_iff_ne_none.mp hok
  · intro r hr
    have hr2 : r ∈ sortByDescQ (fun x => x.similarity) _ := (List.take_sublist _ _).mem hr
    have hr3 := (sortByDescQ_perm _ _).mem_iff.mp hr2
    rcases List.mem_append.mp hr3 with hr4 | hr5
    · rcases List.mem_append.mp hr4 with hc | ht
      · obtain ⟨c, hcm, hmap⟩ := List.mem_filterMap.mp hc
        obtain ⟨e, he, rfl⟩ := Option.map_eq_some'.mp hmap
        exact Or.inl ⟨c, hcm, rfl, by simp [he], rfl⟩
      · obtain ⟨tv, htm, hmap⟩ := List.mem_filterMap.mp ht
        obtain ⟨e, he, rfl⟩ := Option.map_eq_some'.mp hmap
        exact Or.inr (Or.inl ⟨tv, htm, rfl, by simp [he], rfl⟩)
    · obtain ⟨v, hvm, hmap⟩ := List.mem_filterMap.mp hr5
      obtain ⟨e, he, rfl⟩ := Option.map_eq_some'.mp hmap
      exact Or.inr (Or.inr ⟨v, hvm, rfl, by simp [he], rfl⟩)

/-- The `search_fm_global_all` output row of the embedded fixture
chunk. -/
def allRowChunk : AllRow :=
  { sourceId := 31, sourceType := "text", sourceTable := "fm_text_chunks"
    content := "aisle width requirements", similarity := 1, title := "Chunk from fm-8-34" }

theorem spec_c10_witness :
    (∃ v ∈ storeMixed.vectors,
      v.id = (mkMatchRow opsDemo storeMixed [1, 0] rowDemo).vectorId ∧ v.embedding ≠ none)
    ∧ ((∃ c ∈ allStoresDemo.textChunks,
        c.id = allRowChunk.sourceId ∧ c.embedding ≠ none
          ∧ allRowChunk.sourceTable = "fm_text_chunks")
      ∨ (∃ tv ∈ allStoresDemo.tableVectors,
        tv.id = allRowChunk.sourceId ∧ tv.embedding ≠ none
          ∧ allRowChunk.sourceTable = "fm_table_vectors")
      ∨ (∃ v ∈ allStoresDemo.globalVectors,
        v.id = allRowChunk.sourceId ∧ v.embedding ≠ none
          ∧ allRowChunk.sourceTable = "fm_global_vectors")) := by
  constructor
  · exact (spec_c10 opsDemo storeMixed allStoresDemo [1, 0] 5 none none).1
      (mkMatchRow opsDemo storeMixed [1, 0] rowDemo)
      (by norm_num [match_fm_global_vectors, sortByNullsLastAsc, List.insertionSort,
        List.orderedInsert, storeMixed, rowDemo, gvecNoEmb, matchFilterOk, optLeNullsLast,
        distOpt, opsDemo, cosDistUnit, dotQ])
  · exact (spec_c10 opsDemo storeMixed allStoresDemo [1, 0] 5 none none).2 allRowChunk
      (by norm_num [search_fm_global_all, sortByDescQ, List.insertionSort,
        List.orderedInsert, allStoresDemo, chunkDemo, chunkNoEmb, tableVecDemo, gvecNoEmb,
        opsDemo, cosDistUnit, dotQ, allRowChunk]; decide)
